import Mathlib

set_option autoImplicit false

/-!
Verification of the batched job scheduler of the rsa-ai-generator repository.

The definitions below are a shallow embedding of the client-side scheduler in
`src/static/runner.html` (the `Runner` class and the page script around it)
and of the server entry point `generate_rsa_ui` in `src/client.ts`.

Modelling conventions:
* A JavaScript object used as the job store (`this.runnerJobs`) with
  integer-like keys is modelled as an association list `List (Nat × Job)`
  kept in ascending key order, which is exactly the `Object.keys` iteration
  order for such keys; `this.runnerJobs[k] = v` is `storeSet`.
* `JSON.parse`/`JSON.stringify` round-trips of a job are modelled as the
  identity on the `Job` record.
* Promise resolution and the progress callback are modelled by booleans:
  `processStatus` returns whether it invoked the completion callback
  (i.e. resolved the promise returned by `run`).
* Logging (`log`, `trace`, `console.log`) has no observable effect on the
  scheduler state and is not modelled.
* `new Date()` reads are modelled as explicit clock arguments.
-/

/-- Runner status constants RUNNER_STATUS_IDLE / RUNNER_STATUS_RUNNING of runner.html. -/
inductive RunnerStatus
  | IDLE
  | RUNNING
deriving DecidableEq, Repr

/-- Job status constants JOB_STATUS_* of runner.html (the source spells the
cancelled constant JOB_STATUS_CALCELLED, with value CANCELLED). -/
inductive JobStatus
  | PENDING
  | RUNNING
  | COMPLETE
  | ERROR
  | CANCELLED
deriving DecidableEq, Repr

/-- A job record as it lives in the job store: the batch descriptor fields
(id, startRow, endRow from startExecution), the status field the Runner
maintains, and the fields the server side may add (started, ended from
generate_rsa_ui, error on failure). -/
structure Job where
  id : Nat
  status : JobStatus
  startRow : Nat
  endRow : Nat
  started : Option Nat := none
  ended : Option Nat := none
  error : Option String := none
deriving DecidableEq, Repr

/-- A job descriptor as passed to Runner.run: it may or may not carry a
pre-assigned id (JavaScript undefined is none). -/
structure JobDesc where
  id : Option Nat
  startRow : Nat
  endRow : Nat
deriving DecidableEq, Repr

/-- The options object of the Runner constructor. -/
structure RunnerOptions where
  maxRunningJobs : Option Nat := none
  tracing : Bool := false
deriving DecidableEq, Repr

/-- The mutable state of a Runner instance (fields set in the constructor,
runner.html lines 31-40). The progress and completion callbacks are modelled
by whether they are set; logger and the text of traces are unobservable. -/
structure RunnerState where
  runnerJobs : List (Nat × Job)
  command : String
  completionCallbackSet : Bool
  runnerStatus : RunnerStatus
  maxRunningJobs : Nat
  tracing : Bool
deriving DecidableEq, Repr

/-- Entry predicate: the stored job is RUNNING. -/
def isRunningEntry (p : Nat × Job) : Bool := p.2.status == JobStatus.RUNNING

/-- Entry predicate: the stored job is PENDING. -/
def isPendingEntry (p : Nat × Job) : Bool := p.2.status == JobStatus.PENDING

/-- Number of RUNNING jobs in a store (the runningCount of Runner.runJobs). -/
def runningCount (l : List (Nat × Job)) : Nat := l.countP isRunningEntry

/-- Number of PENDING jobs in a store (the length of pendingJobs in Runner.runJobs). -/
def pendingCount (l : List (Nat × Job)) : Nat := l.countP isPendingEntry

/-- A status is terminal when it is COMPLETE, ERROR or CANCELLED. -/
def isTerminal : JobStatus → Bool
  | JobStatus.COMPLETE => true
  | JobStatus.ERROR => true
  | JobStatus.CANCELLED => true
  | JobStatus.PENDING => false
  | JobStatus.RUNNING => false

/-- Assignment this.runnerJobs[k] = v on an integer-keyed JavaScript object,
as an association-list update that keeps keys in ascending order (the
Object.keys iteration order for integer-like keys). -/
def storeSet : List (Nat × Job) → Nat → Job → List (Nat × Job)
  | [], k, v => [(k, v)]
  | p :: rest, k, v =>
    if k = p.1 then (k, v) :: rest
    else if k < p.1 then (k, v) :: p :: rest
    else p :: storeSet rest k v

/-- Lookup this.runnerJobs[k]. -/
def storeGet (l : List (Nat × Job)) (k : Nat) : Option Job :=
  (l.find? (fun p => p.1 == k)).map Prod.snd

/-- The while loop of Runner.runJobs (runner.html lines 58-70): walk the store
in key order and turn the first k PENDING jobs into RUNNING jobs, where k is
the remaining admission budget; jobs in other states are left untouched. -/
def admitFirst : Nat → List (Nat × Job) → List (Nat × Job)
  | _, [] => []
  | k, p :: rest =>
    if p.2.status = JobStatus.PENDING then
      match k with
      | 0 => p :: rest
      | Nat.succ k' => (p.1, { p.2 with status := JobStatus.RUNNING }) :: admitFirst k' rest
    else
      p :: admitFirst k rest

namespace Runner

/-- Runner.MAX_RUNNING_JOBS_DEFAULT (runner.html line 193). -/
def MAX_RUNNING_JOBS_DEFAULT : Nat := 2

/-- The expression options?.maxRunningJobs || Runner.MAX_RUNNING_JOBS_DEFAULT
of the constructor: optional chaining yields undefined when options is absent,
and || replaces every falsy value (undefined or 0) by the default. -/
def effectiveMaxRunningJobs (options : Option RunnerOptions) : Nat :=
  match options with
  | none => MAX_RUNNING_JOBS_DEFAULT
  | some o =>
    match o.maxRunningJobs with
    | none => MAX_RUNNING_JOBS_DEFAULT
    | some 0 => MAX_RUNNING_JOBS_DEFAULT
    | some (Nat.succ n) => Nat.succ n

/-- The expression !!options?.tracing of the constructor. -/
def effectiveTracing (options : Option RunnerOptions) : Bool :=
  match options with
  | none => false
  | some o => o.tracing

/-- The Runner constructor (runner.html lines 31-40): empty job store, empty
command, null callbacks, status IDLE, and the concurrency limit computed from
the options. -/
def init (options : Option RunnerOptions) : RunnerState :=
  { runnerJobs := []
    command := ""
    completionCallbackSet := false
    runnerStatus := RunnerStatus.IDLE
    maxRunningJobs := effectiveMaxRunningJobs options
    tracing := effectiveTracing options }

/-- Runner.runJobs (runner.html lines 45-71): count the RUNNING jobs, collect
the PENDING jobs in store order, and admit pending jobs (PENDING to RUNNING,
dispatching each) while the running count stays below maxRunningJobs. The
admission budget is maxRunningJobs - runningCount in truncated natural
subtraction, exactly the number of loop iterations of the source. -/
def runJobs (s : RunnerState) : RunnerState :=
  { s with runnerJobs :=
      admitFirst (s.maxRunningJobs - runningCount s.runnerJobs) s.runnerJobs }

/-- Runner.processStatus (runner.html lines 77-92): run the admission sweep,
then, if no job is RUNNING, invoke the completion callback (resolving the
promise returned by run). The boolean records whether the callback fired. -/
def processStatus (s : RunnerState) : RunnerState × Bool :=
  if (runJobs s).runnerJobs.any isRunningEntry then (runJobs s, false)
  else (runJobs s, (runJobs s).completionCallbackSet)

/-- Runner.successHandler (runner.html lines 99-108): parse the payload, set
its status to COMPLETE, write it into the store under the payload's id, notify
progress, and re-run processStatus. -/
def successHandler (s : RunnerState) (input : Job) : RunnerState × Bool :=
  let job := { input with status := JobStatus.COMPLETE }
  processStatus { s with runnerJobs := storeSet s.runnerJobs job.id job }

/-- Runner.errorHandler (runner.html lines 115-124): parse the payload, set
its status to ERROR, write it into the store under the payload's id, notify
progress, and re-run processStatus. -/
def errorHandler (s : RunnerState) (input : Job) : RunnerState × Bool :=
  let job := { input with status := JobStatus.ERROR }
  processStatus { s with runnerJobs := storeSet s.runnerJobs job.id job }

/-- The for loop of Runner.run (runner.html lines 145-150) starting at index
i: each descriptor gets id i when its id is undefined, status PENDING, and is
stored under the loop index i (not under its id). -/
def buildStore : Nat → List JobDesc → List (Nat × Job)
  | _, [] => []
  | i, d :: rest =>
    (i, { id := d.id.getD i
          status := JobStatus.PENDING
          startRow := d.startRow
          endRow := d.endRow }) :: buildStore (i + 1) rest

/-- The outcome of one call to Runner.run: the state after the call, whether
the returned promise was immediately rejected, and whether it was resolved
during the call. -/
structure RunOutcome where
  state : RunnerState
  rejected : Bool
  resolved : Bool
deriving DecidableEq, Repr

/-- Runner.run (runner.html lines 135-155): if runnerStatus equals RUNNING the
promise is rejected at once with the runner-busy error and nothing is mutated;
otherwise the callbacks, the command and a freshly built job store replace the
previous ones and processStatus is invoked. Note that the source never assigns
runnerStatus anywhere, so the field keeps the value IDLE given by the
constructor. -/
def run (s : RunnerState) (command : String) (jobs : List JobDesc) : RunOutcome :=
  match s.runnerStatus with
  | RunnerStatus.RUNNING => { state := s, rejected := true, resolved := false }
  | RunnerStatus.IDLE =>
    let s1 := { s with
      completionCallbackSet := true
      command := command
      runnerJobs := buildStore 0 jobs }
    let r := processStatus s1
    { state := r.1, rejected := false, resolved := r.2 }

/-- The body of the loop of Runner.stop applied to one store entry: a PENDING
or RUNNING job becomes CANCELLED, every other job is left as it is. -/
def stopJob (p : Nat × Job) : Nat × Job :=
  if p.2.status = JobStatus.PENDING ∨ p.2.status = JobStatus.RUNNING then
    (p.1, { p.2 with status := JobStatus.CANCELLED })
  else p

/-- Runner.stop (runner.html lines 161-168): mark every PENDING or RUNNING job
CANCELLED. It neither dispatches nor calls processStatus. -/
def stop (s : RunnerState) : RunnerState :=
  { s with runnerJobs := s.runnerJobs.map stopJob }

end Runner

/-- The events through which the scheduler state evolves during a session: a
call to run, the success handler of a settling remote call (with the parsed
payload), the error handler likewise, and a call to stop. -/
inductive RunnerEvent
  | runCall (command : String) (jobs : List JobDesc)
  | success (payload : Job)
  | failure (payload : Job)
  | stopCall

/-- Apply one event to a runner state. -/
def applyEvent (s : RunnerState) (e : RunnerEvent) : RunnerState :=
  match e with
  | RunnerEvent.runCall c jobs => (Runner.run s c jobs).state
  | RunnerEvent.success payload => (Runner.successHandler s payload).1
  | RunnerEvent.failure payload => (Runner.errorHandler s payload).1
  | RunnerEvent.stopCall => Runner.stop s

/-- States reachable from a freshly constructed Runner through any sequence of
events (an over-approximation of the real traces, in which handlers only fire
for previously dispatched jobs). -/
inductive Reachable (options : Option RunnerOptions) : RunnerState → Prop
  | init : Reachable options (Runner.init options)
  | step {s : RunnerState} (e : RunnerEvent) :
      Reachable options s → Reachable options (applyEvent s e)

/-- The batch count Math.ceil((rowEnd - rowStart + 1) / batchSize) of
startExecution (runner.html line 445), written with natural-number ceiling
division. -/
def batchCount (rowStart rowEnd batchSize : Nat) : Nat :=
  (rowEnd - rowStart + 1 + batchSize - 1) / batchSize

/-- The descriptor-construction loop of startExecution (runner.html lines
449-457): batch i gets id i, startRow rowStart + i * batchSize and endRow
Math.min(rowEnd, rowStart + i * batchSize + batchSize - 1). -/
def startExecutionJobs (rowStart rowEnd batchSize : Nat) : List JobDesc :=
  (List.range (batchCount rowStart rowEnd batchSize)).map (fun i =>
    { id := some i
      startRow := rowStart + i * batchSize
      endRow := min rowEnd (rowStart + i * batchSize + batchSize - 1) })

/-- generate_rsa_ui (src/client.ts lines 55-70), with the generate_rsa call
abstracted as its outcome and the two new Date() reads as clock values t1
(before the try) and t2 (in the finally block). On success the finally block
runs before the return statement that follows the try statement, so the
returned payload carries both started and ended; on failure the thrown value
JSON.stringify(job) is computed in the catch block, before the finally block
sets ended, so the rejected payload carries started and error but no ended. -/
def generate_rsa_ui (outcome : Except String Unit) (t1 t2 : Nat) (input : Job) :
    Except Job Job :=
  let job := { input with started := some t1 }
  match outcome with
  | Except.ok _ => Except.ok { job with ended := some t2 }
  | Except.error e => Except.error { job with error := some e }

/-- Identifiers lexically in scope inside the failure-handler closure created
at runner.html line 67 ((e) => this.errorHandler(i)): the closure parameter e;
the enclosing while-body binding job; the runJobs locals pendingJobs and
runningCount; the for binding id; this; the script-level constants and the
Runner class of the first script block; the top-level bindings of the page
script block; and the window properties contributed by elements with an id
attribute and by the host (google, document, window, console, alert). -/
def failureHandlerScopeIdents : List String :=
  ["e", "job", "id", "pendingJobs", "runningCount", "this",
   "RUNNER_STATUS_IDLE", "RUNNER_STATUS_RUNNING", "JOB_STATUS_RUNNING",
   "JOB_STATUS_PENDING", "JOB_STATUS_COMPLETE", "JOB_STATUS_ERROR",
   "JOB_STATUS_CALCELLED", "Runner",
   "BATCH_SIZE", "gRunner", "writeStatus", "enableElement", "setUiState",
   "enableUi", "disableUi", "onError", "onStop", "onRun",
   "onJobStatusChanged", "getJobStatusHtml", "startExecution",
   "onExecutionCompleted", "clearJobsTable", "addJobsTableRow",
   "rowStart", "rowEnd", "batchSize", "maxJobs", "tJobs", "log", "tracing",
   "google", "document", "window", "console", "alert"]

/-- The identifier the failure-handler closure at runner.html line 67 passes
to errorHandler. The success handler on the previous line is
(i) => this.successHandler(i), whose parameter is named i; the failure
handler's parameter is named e, yet the argument written is i. -/
def failureDispatchArgIdent : String := "i"

/-- A run of one batch [2, 10] on a fresh Runner with default options: the
single job is admitted immediately and is in flight. -/
def runActiveOneJob : Runner.RunOutcome :=
  Runner.run (Runner.init none) "generate_rsa_ui"
    [{ id := none, startRow := 2, endRow := 10 }]

/-- The payload the remote side echoes back for the job of runActiveOneJob,
annotated with timestamps. -/
def lateEchoPayload : Job :=
  { id := 0, status := JobStatus.RUNNING, startRow := 2, endRow := 10,
    started := some 100, ended := some 200 }

/-- A run of two batches on a fresh Runner with default options: both jobs
are admitted immediately and are in flight. -/
def runActiveTwoJobs : Runner.RunOutcome :=
  Runner.run (Runner.init none) "generate_rsa_ui"
    [{ id := none, startRow := 2, endRow := 5 },
     { id := none, startRow := 6, endRow := 10 }]

/-- The rejected payload of the first job of runActiveTwoJobs. -/
def rejectedPayload : Job :=
  { id := 0, status := JobStatus.RUNNING, startRow := 2, endRow := 5,
    error := some "boom" }

/-- The echoed payload of the second job of runActiveTwoJobs. -/
def secondEchoPayload : Job :=
  { id := 1, status := JobStatus.RUNNING, startRow := 6, endRow := 10 }

/-- A run of a single descriptor arriving with the pre-assigned id 5 (which
differs from its positional index 0), on a fresh Runner with default
options. -/
def runPreassignedId : Runner.RunOutcome :=
  Runner.run (Runner.init none) "generate_rsa_ui"
    [{ id := some 5, startRow := 2, endRow := 3 }]

/-- The payload the remote side echoes back for the job of runPreassignedId. -/
def preassignedEchoPayload : Job :=
  { id := 5, status := JobStatus.RUNNING, startRow := 2, endRow := 3 }

/-- A store state with only terminal jobs, used to instantiate the resolution
and stop theorems. -/
def allTerminalExample : RunnerState :=
  { runnerJobs :=
      [(0, { id := 0, status := JobStatus.COMPLETE, startRow := 2, endRow := 5 }),
       (1, { id := 1, status := JobStatus.CANCELLED, startRow := 6, endRow := 10 })]
    command := "generate_rsa_ui"
    completionCallbackSet := true
    runnerStatus := RunnerStatus.IDLE
    maxRunningJobs := 2
    tracing := false }

/-- A store state mixing a PENDING, a RUNNING, a COMPLETE and an ERROR job,
used to instantiate the stop theorem. -/
def mixedStateExample : RunnerState :=
  { runnerJobs :=
      [(0, { id := 0, status := JobStatus.PENDING, startRow := 2, endRow := 3 }),
       (1, { id := 1, status := JobStatus.RUNNING, startRow := 4, endRow := 5 }),
       (2, { id := 2, status := JobStatus.COMPLETE, startRow := 6, endRow := 7 }),
       (3, { id := 3, status := JobStatus.ERROR, startRow := 8, endRow := 9 })]
    command := "generate_rsa_ui"
    completionCallbackSet := true
    runnerStatus := RunnerStatus.IDLE
    maxRunningJobs := 1
    tracing := false }

/-- A two-event session (a run call followed by one success report), used to
instantiate the reachable-state concurrency bound. -/
def twoEventSession : RunnerState :=
  applyEvent
    (applyEvent (Runner.init none)
      (RunnerEvent.runCall "generate_rsa_ui"
        [{ id := none, startRow := 2, endRow := 5 },
         { id := none, startRow := 6, endRow := 10 },
         { id := none, startRow := 11, endRow := 12 }]))
    (RunnerEvent.success { id := 0, status := JobStatus.RUNNING, startRow := 2, endRow := 5 })

/-- Claim C1 (code bug): a job moved to CANCELLED by stop while its remote
call is in flight does not stay CANCELLED: the late success report overwrites
the record to COMPLETE (successHandler stores the payload unconditionally,
with no check of the terminal state), and the run even resolves from it. -/
theorem late_success_overwrites_cancelled :
    (Runner.stop runActiveOneJob.state).runnerJobs
      = [(0, { id := 0, status := JobStatus.CANCELLED, startRow := 2, endRow := 10 })]
    ∧ (Runner.successHandler (Runner.stop runActiveOneJob.state) lateEchoPayload).1.runnerJobs
      = [(0, { id := 0, status := JobStatus.COMPLETE, startRow := 2, endRow := 10,
               started := some 100, ended := some 200 })]
    ∧ (Runner.successHandler (Runner.stop runActiveOneJob.state) lateEchoPayload).2 = true := by
  decide

/-- Claim C2 (code bug): with the first run still active (its job RUNNING and
its promise unresolved), a second run call is not rejected: since the source
never assigns runnerStatus, the guard comparing it to RUNNING never fires, and
the second call replaces the job store and the command of the first run. -/
theorem second_run_clobbers_active_run :
    runActiveOneJob.resolved = false
    ∧ runningCount runActiveOneJob.state.runnerJobs = 1
    ∧ runActiveOneJob.state.runnerStatus = RunnerStatus.IDLE
    ∧ (Runner.run runActiveOneJob.state "second"
        [{ id := none, startRow := 11, endRow := 20 }]).rejected = false
    ∧ (Runner.run runActiveOneJob.state "second"
        [{ id := none, startRow := 11, endRow := 20 }]).state.command = "second"
    ∧ (Runner.run runActiveOneJob.state "second"
        [{ id := none, startRow := 11, endRow := 20 }]).state.runnerJobs
      = [(0, { id := 0, status := JobStatus.RUNNING, startRow := 11, endRow := 20 })] := by
  decide

/-- Claim C3 (code bug): the argument the failure-handler closure passes to
errorHandler is the identifier i, which is bound in no enclosing scope, so a
rejected remote call throws a ReferenceError instead of reaching errorHandler;
errorHandler itself, when invoked with the rejected payload, does behave as
the claim states: the job becomes ERROR with the payload stored, the sibling
job is untouched, the run is not resolved yet, and it resolves once the
sibling settles. -/
theorem failure_dispatch_ident_unbound :
    failureHandlerScopeIdents.contains failureDispatchArgIdent = false
    ∧ (Runner.errorHandler runActiveTwoJobs.state rejectedPayload).1.runnerJobs
      = [(0, { id := 0, status := JobStatus.ERROR, startRow := 2, endRow := 5,
               error := some "boom" }),
         (1, { id := 1, status := JobStatus.RUNNING, startRow := 6, endRow := 10 })]
    ∧ (Runner.errorHandler runActiveTwoJobs.state rejectedPayload).2 = false
    ∧ (Runner.successHandler
        (Runner.errorHandler runActiveTwoJobs.state rejectedPayload).1
        secondEchoPayload).2 = true := by
  decide

/-- Claim C8 (code bug): a descriptor arriving with pre-assigned id 5 at
position 0 is admitted under store key 0 (run keys the store by the loop
index), but the success handler writes the completed payload under key 5, a
different entry: the store ends with two entries for one job, the admitted
entry stays RUNNING forever, and the run never resolves. -/
theorem preassigned_id_splits_record :
    runPreassignedId.state.runnerJobs
      = [(0, { id := 5, status := JobStatus.RUNNING, startRow := 2, endRow := 3 })]
    ∧ (Runner.successHandler runPreassignedId.state preassignedEchoPayload).1.runnerJobs
      = [(0, { id := 5, status := JobStatus.RUNNING, startRow := 2, endRow := 3 }),
         (5, { id := 5, status := JobStatus.COMPLETE, startRow := 2, endRow := 3 })]
    ∧ (Runner.successHandler runPreassignedId.state preassignedEchoPayload).2 = false := by
  decide

/-- Claim C9: generate_rsa_ui returns normally exactly when the underlying
work succeeds, in which case the returned payload echoes the input's id with
the start and end timestamps added; when the work throws, the thrown payload
echoes the input's id and carries the thrown error in its error field. -/
theorem generate_rsa_ui_echoes_id (outcome : Except String Unit) (t1 t2 : Nat)
    (input : Job) :
    ((∃ out, generate_rsa_ui outcome t1 t2 input = Except.ok out)
      ↔ outcome = Except.ok ())
    ∧ (∀ out, generate_rsa_ui outcome t1 t2 input = Except.ok out →
        out.id = input.id ∧ out.started = some t1 ∧ out.ended = some t2)
    ∧ (∀ e, outcome = Except.error e →
        generate_rsa_ui outcome t1 t2 input
          = Except.error { input with started := some t1, error := some e }) := by
  refine ⟨⟨fun ⟨out, hout⟩ => ?_, fun h => ?_⟩, fun out hout => ?_, fun e he => ?_⟩
  · cases outcome with
    | ok u => cases u; rfl
    | error e => simp [generate_rsa_ui] at hout
  · subst h
    exact ⟨_, rfl⟩
  · cases outcome with
    | ok u =>
      cases u
      simp only [generate_rsa_ui, Except.ok.injEq] at hout
      subst hout
      exact ⟨rfl, rfl, rfl⟩
    | error e => simp [generate_rsa_ui] at hout
  · subst he
    rfl

/-- Witness for generate_rsa_ui_echoes_id at a concrete failing job. -/
theorem generate_rsa_ui_echoes_id_witness :
    generate_rsa_ui (Except.error "boom") 5 9
        { id := 3, status := JobStatus.RUNNING, startRow := 2, endRow := 4 }
      = Except.error { id := 3, status := JobStatus.RUNNING, startRow := 2,
                       endRow := 4, started := some 5, error := some "boom" } :=
  (generate_rsa_ui_echoes_id (Except.error "boom") 5 9
    { id := 3, status := JobStatus.RUNNING, startRow := 2, endRow := 4 }).2.2
    "boom" rfl

/-- Claim C10: a Runner constructed with a falsy maxRunningJobs option (the
value 0, an undefined field, or no options object at all) gets the default
concurrency limit 2, and no constructor input yields an effective limit of
0. -/
theorem constructor_max_running_jobs_default :
    (Runner.init none).maxRunningJobs = 2
    ∧ (Runner.init (some { maxRunningJobs := none })).maxRunningJobs = 2
    ∧ (Runner.init (some { maxRunningJobs := some 0 })).maxRunningJobs = 2
    ∧ (∀ options, 0 < (Runner.init options).maxRunningJobs)
    ∧ Runner.MAX_RUNNING_JOBS_DEFAULT = 2 := by
  refine ⟨rfl, rfl, rfl, fun options => ?_, rfl⟩
  cases options with
  | none => decide
  | some o =>
    cases h : o.maxRunningJobs with
    | none =>
      simp [Runner.init, Runner.effectiveMaxRunningJobs, h,
        Runner.MAX_RUNNING_JOBS_DEFAULT]
    | some n =>
      cases n with
      | zero =>
        simp [Runner.init, Runner.effectiveMaxRunningJobs, h,
          Runner.MAX_RUNNING_JOBS_DEFAULT]
      | succ m => simp [Runner.init, Runner.effectiveMaxRunningJobs, h]

/-- Running count of the admission sweep: admitFirst k turns min k (pending
count) PENDING jobs into RUNNING jobs and changes nothing else. -/
theorem runningCount_admitFirst (k : Nat) (l : List (Nat × Job)) :
    runningCount (admitFirst k l) = runningCount l + min k (pendingCount l) := by
  induction l generalizing k with
  | nil => simp [admitFirst, runningCount, pendingCount]
  | cons p rest ih =>
    by_cases hp : p.2.status = JobStatus.PENDING
    · cases k with
      | zero => simp [admitFirst, hp]
      | succ k' =>
        simp only [admitFirst, hp, if_pos]
        simp only [runningCount, pendingCount, List.countP_cons, isRunningEntry,
          isPendingEntry, beq_iff_eq, hp] at ih ⊢
        rw [ih]
        simp
        try omega
    · simp only [admitFirst, hp, if_neg, if_false]
      simp only [runningCount, pendingCount, List.countP_cons, isRunningEntry,
        isPendingEntry, beq_iff_eq] at ih ⊢
      rw [ih]
      simp [hp]
      try omega

/-- Writing a non-RUNNING job into the store never increases the RUNNING
count. -/
theorem runningCount_storeSet_le (l : List (Nat × Job)) (k : Nat) (v : Job)
    (hv : (v.status == JobStatus.RUNNING) = false) :
    runningCount (storeSet l k v) ≤ runningCount l := by
  induction l with
  | nil => simp [storeSet, runningCount, List.countP_cons, isRunningEntry, hv]
  | cons p rest ih =>
    by_cases h1 : k = p.1
    · simp only [storeSet, h1, if_pos]
      simp [runningCount, List.countP_cons, isRunningEntry, hv]
      try omega
    · by_cases h2 : k < p.1
      · simp only [storeSet, h1, h2, if_neg, if_pos, if_false]
        simp [runningCount, List.countP_cons, isRunningEntry, hv]
      · simp only [storeSet, h1, h2, if_neg, if_false]
        simp only [runningCount, List.countP_cons] at ih ⊢
        omega

/-- Every job the loop of Runner.run builds is PENDING. -/
theorem buildStore_all_pending (ds : List JobDesc) (i : Nat) :
    ∀ p ∈ Runner.buildStore i ds, p.2.status = JobStatus.PENDING := by
  induction ds generalizing i with
  | nil => simp [Runner.buildStore]
  | cons d rest ih =>
    intro p hp
    simp only [Runner.buildStore, List.mem_cons] at hp
    rcases hp with h | h
    · rw [h]
    · exact ih (i + 1) p h

/-- The store built by Runner.run has no RUNNING job. -/
theorem runningCount_buildStore (ds : List JobDesc) (i : Nat) :
    runningCount (Runner.buildStore i ds) = 0 := by
  rw [runningCount, List.countP_eq_zero]
  intro p hp
  have := buildStore_all_pending ds i p hp
  simp [isRunningEntry, this]

/-- After a stop call no job is PENDING or RUNNING. -/
theorem stopStore_no_active (l : List (Nat × Job)) :
    runningCount (l.map Runner.stopJob) = 0 ∧ pendingCount (l.map Runner.stopJob) = 0 := by
  constructor <;>
    · simp only [runningCount, pendingCount, List.countP_eq_zero]
      intro q hq
      obtain ⟨p, hp, rfl⟩ := List.mem_map.mp hq
      unfold Runner.stopJob
      by_cases h : p.2.status = JobStatus.PENDING ∨ p.2.status = JobStatus.RUNNING
      · simp [h, isRunningEntry, isPendingEntry]
      · push_neg at h
        simp [h, isRunningEntry, isPendingEntry, h.1, h.2]

/-- The admission sweep never pushes the RUNNING count above maxRunningJobs. -/
theorem runJobs_bound (s : RunnerState)
    (h : runningCount s.runnerJobs ≤ s.maxRunningJobs) :
    runningCount (Runner.runJobs s).runnerJobs ≤ s.maxRunningJobs := by
  show runningCount (admitFirst (s.maxRunningJobs - runningCount s.runnerJobs)
    s.runnerJobs) ≤ s.maxRunningJobs
  rw [runningCount_admitFirst]
  have hmin := Nat.min_le_left (s.maxRunningJobs - runningCount s.runnerJobs)
    (pendingCount s.runnerJobs)
  omega

/-- processStatus only transforms the state through the admission sweep. -/
theorem processStatus_fst (s : RunnerState) :
    (Runner.processStatus s).1 = Runner.runJobs s := by
  unfold Runner.processStatus
  split <;> rfl

/-- A store holds only terminal jobs exactly when it has neither RUNNING nor
PENDING jobs. -/
theorem allTerminal_iff_counts (l : List (Nat × Job)) :
    (∀ p ∈ l, isTerminal p.2.status = true) ↔
      runningCount l = 0 ∧ pendingCount l = 0 := by
  simp only [runningCount, pendingCount, List.countP_eq_zero, isRunningEntry,
    isPendingEntry, beq_iff_eq]
  constructor
  · intro h
    refine ⟨fun p hp => ?_, fun p hp => ?_⟩ <;>
      · have ht := h p hp
        cases hst : p.2.status <;> simp [hst, isTerminal] at ht ⊢
  · intro h p hp
    have h1 := h.1 p hp
    have h2 := h.2 p hp
    cases hst : p.2.status <;> simp [hst] at h1 h2 ⊢ <;> simp [isTerminal]

/-- The completion check of processStatus passes exactly when the store
entering it holds neither PENDING nor RUNNING jobs, provided at least one job
may run at a time (always true of a constructed Runner) and the completion
callback is set (always true during a run). -/
theorem processStatus_snd_iff_counts (s : RunnerState)
    (hmax : 1 ≤ s.maxRunningJobs) (hcb : s.completionCallbackSet = true) :
    (Runner.processStatus s).2 = true ↔
      runningCount s.runnerJobs = 0 ∧ pendingCount s.runnerJobs = 0 := by
  have hrc : runningCount (Runner.runJobs s).runnerJobs
      = runningCount s.runnerJobs
        + min (s.maxRunningJobs - runningCount s.runnerJobs)
            (pendingCount s.runnerJobs) :=
    runningCount_admitFirst _ _
  have hany : ((Runner.runJobs s).runnerJobs.any isRunningEntry = false)
      ↔ runningCount (Runner.runJobs s).runnerJobs = 0 := by
    rw [runningCount, List.countP_eq_zero, List.any_eq_false]
  have hcb2 : (Runner.runJobs s).completionCallbackSet = true := hcb
  by_cases hb : (Runner.runJobs s).runnerJobs.any isRunningEntry
  · unfold Runner.processStatus
    rw [if_pos hb]
    simp only [Bool.false_eq_true, false_iff]
    intro hcounts
    have h0 : runningCount (Runner.runJobs s).runnerJobs = 0 := by
      rw [hrc, hcounts.1, hcounts.2]
      simp
    rw [← hany] at h0
    rw [hb] at h0
    exact Bool.true_eq_false.mp h0
  · unfold Runner.processStatus
    rw [if_neg hb]
    simp only [hcb2, true_iff, iff_true]
    have h0 : runningCount (Runner.runJobs s).runnerJobs = 0 :=
      hany.mp (Bool.of_not_eq_true hb)
    rw [hrc] at h0
    have hmin : min (s.maxRunningJobs - runningCount s.runnerJobs)
        (pendingCount s.runnerJobs) = 0 := by omega
    rcases Nat.min_eq_zero_iff.mp hmin with h | h
    · constructor
      · omega
      · omega
    · constructor <;> omega

/-- Claim C4: during a run (completion callback set, concurrency limit at
least 1 as every constructed Runner has), the completion callback passed to
processStatus fires exactly when every job in the store is terminal: the run's
promise never resolves while a job is PENDING or RUNNING, and it resolves even
when the terminal states are all ERROR or all CANCELLED; moreover after a stop
call every job is terminal, so the very next completion check (triggered by
any settling in-flight call) resolves the run. -/
theorem run_resolves_iff_all_terminal (s : RunnerState)
    (hmax : 1 ≤ s.maxRunningJobs) (hcb : s.completionCallbackSet = true) :
    ((Runner.processStatus s).2 = true ↔
      ∀ p ∈ s.runnerJobs, isTerminal p.2.status = true)
    ∧ (Runner.processStatus (Runner.stop s)).2 = true := by
  constructor
  · rw [processStatus_snd_iff_counts s hmax hcb, allTerminal_iff_counts]
  · have hstop := stopStore_no_active s.runnerJobs
    exact (processStatus_snd_iff_counts (Runner.stop s) hmax hcb).mpr hstop

/-- Witness for run_resolves_iff_all_terminal on a concrete all-terminal
store. -/
theorem run_resolves_iff_all_terminal_witness :
    (Runner.processStatus allTerminalExample).2 = true
    ∧ (Runner.processStatus (Runner.stop allTerminalExample)).2 = true :=
  ⟨((run_resolves_iff_all_terminal allTerminalExample (by decide) rfl).1).mpr
      (by decide),
   (run_resolves_iff_all_terminal allTerminalExample (by decide) rfl).2⟩

/-- stopJob on a PENDING or RUNNING entry cancels it. -/
theorem stopJob_of_active (p : Nat × Job)
    (h : p.2.status = JobStatus.PENDING ∨ p.2.status = JobStatus.RUNNING) :
    Runner.stopJob p = (p.1, { p.2 with status := JobStatus.CANCELLED }) := by
  unfold Runner.stopJob
  rw [if_pos h]

/-- stopJob leaves every other entry unchanged. -/
theorem stopJob_of_inactive (p : Nat × Job)
    (h : ¬(p.2.status = JobStatus.PENDING ∨ p.2.status = JobStatus.RUNNING)) :
    Runner.stopJob p = p := by
  unfold Runner.stopJob
  rw [if_neg h]

/-- A terminal status is neither PENDING nor RUNNING. -/
theorem not_active_of_terminal (st : JobStatus) (h : isTerminal st = true) :
    ¬(st = JobStatus.PENDING ∨ st = JobStatus.RUNNING) := by
  cases st <;> simp_all [isTerminal]

/-- stopJob is idempotent on every entry. -/
theorem stopJob_idem (p : Nat × Job) :
    Runner.stopJob (Runner.stopJob p) = Runner.stopJob p := by
  by_cases h : p.2.status = JobStatus.PENDING ∨ p.2.status = JobStatus.RUNNING
  · rw [stopJob_of_active p h]
    apply stopJob_of_inactive
    simp
  · rw [stopJob_of_inactive p h, stopJob_of_inactive p h]

/-- Claim C7: stop cancels exactly the non-terminal jobs: every PENDING or
RUNNING entry reappears CANCELLED (same key, all other fields intact), every
COMPLETE or ERROR entry is untouched; stop is idempotent; and on a store whose
jobs are all terminal (a completed run) stop changes nothing at all. -/
theorem stop_cancels_nonterminal_idempotent (s : RunnerState) :
    (∀ p ∈ s.runnerJobs,
      ((p.2.status = JobStatus.PENDING ∨ p.2.status = JobStatus.RUNNING) →
        (p.1, { p.2 with status := JobStatus.CANCELLED }) ∈ (Runner.stop s).runnerJobs)
      ∧ ((p.2.status = JobStatus.COMPLETE ∨ p.2.status = JobStatus.ERROR) →
        p ∈ (Runner.stop s).runnerJobs))
    ∧ Runner.stop (Runner.stop s) = Runner.stop s
    ∧ ((∀ p ∈ s.runnerJobs, isTerminal p.2.status = true) → Runner.stop s = s) := by
  refine ⟨fun p hp => ⟨fun hact => ?_, fun hterm => ?_⟩, ?_, fun hall => ?_⟩
  · have := List.mem_map_of_mem Runner.stopJob hp
    rw [stopJob_of_active p hact] at this
    exact this
  · have := List.mem_map_of_mem Runner.stopJob hp
    rw [stopJob_of_inactive p] at this
    · exact this
    · rcases hterm with h | h <;> simp [h]
  · have hmap : (s.runnerJobs.map Runner.stopJob).map Runner.stopJob
        = s.runnerJobs.map Runner.stopJob := by
      rw [List.map_map]
      exact List.map_congr_left fun p _ => stopJob_idem p
    exact congrArg (fun l => { s with runnerJobs := l }) hmap
  · have hmap : s.runnerJobs.map Runner.stopJob = s.runnerJobs := by
      conv_rhs => rw [← List.map_id s.runnerJobs]
      refine List.map_congr_left fun p hpmem => ?_
      rw [stopJob_of_inactive p (not_active_of_terminal p.2.status (hall p hpmem))]
      rfl
    exact congrArg (fun l => { s with runnerJobs := l }) hmap

/-- Witness for stop_cancels_nonterminal_idempotent on a store mixing all four
non-cancelled states. -/
theorem stop_cancels_nonterminal_idempotent_witness :
    (0, ({ id := 0, status := JobStatus.CANCELLED, startRow := 2, endRow := 3 } : Job))
      ∈ (Runner.stop mixedStateExample).runnerJobs
    ∧ (2, ({ id := 2, status := JobStatus.COMPLETE, startRow := 6, endRow := 7 } : Job))
      ∈ (Runner.stop mixedStateExample).runnerJobs
    ∧ Runner.stop (Runner.stop mixedStateExample) = Runner.stop mixedStateExample :=
  ⟨((stop_cancels_nonterminal_idempotent mixedStateExample).1
      (0, { id := 0, status := JobStatus.PENDING, startRow := 2, endRow := 3 })
      (by decide)).1 (Or.inl rfl),
   ((stop_cancels_nonterminal_idempotent mixedStateExample).1
      (2, { id := 2, status := JobStatus.COMPLETE, startRow := 6, endRow := 7 })
      (by decide)).2 (Or.inl rfl),
   (stop_cancels_nonterminal_idempotent mixedStateExample).2.1⟩

/-- Every event of a session leaves the concurrency limit field unchanged. -/
theorem applyEvent_max (s : RunnerState) (e : RunnerEvent) :
    (applyEvent s e).maxRunningJobs = s.maxRunningJobs := by
  cases e with
  | runCall c jobs =>
    show (Runner.run s c jobs).state.maxRunningJobs = s.maxRunningJobs
    unfold Runner.run
    cases s.runnerStatus with
    | RUNNING => rfl
    | IDLE =>
      dsimp only
      rw [processStatus_fst]
      rfl
  | success payload =>
    show (Runner.successHandler s payload).1.maxRunningJobs = s.maxRunningJobs
    unfold Runner.successHandler
    rw [processStatus_fst]
    rfl
  | failure payload =>
    show (Runner.errorHandler s payload).1.maxRunningJobs = s.maxRunningJobs
    unfold Runner.errorHandler
    rw [processStatus_fst]
    rfl
  | stopCall => rfl

/-- Claim C6: over every state reachable from a freshly constructed Runner
through run calls, success and error reports, and stop calls, the number of
RUNNING jobs in the store never exceeds the maxRunningJobs limit. -/
theorem reachable_running_le_max (options : Option RunnerOptions)
    (s : RunnerState) (h : Reachable options s) :
    runningCount s.runnerJobs ≤ s.maxRunningJobs := by
  induction h with
  | init => simp [Runner.init, runningCount]
  | @step s' e _ ih =>
    rw [applyEvent_max s' e]
    cases e with
    | runCall c jobs =>
      show runningCount (Runner.run s' c jobs).state.runnerJobs ≤ s'.maxRunningJobs
      unfold Runner.run
      cases hst : s'.runnerStatus with
      | RUNNING => exact ih
      | IDLE =>
        dsimp only
        rw [processStatus_fst]
        have h0 : runningCount (Runner.buildStore 0 jobs) = 0 :=
          runningCount_buildStore jobs 0
        exact runJobs_bound _ (by rw [h0]; exact Nat.zero_le _)
    | success payload =>
      show runningCount (Runner.successHandler s' payload).1.runnerJobs
        ≤ s'.maxRunningJobs
      unfold Runner.successHandler
      rw [processStatus_fst]
      refine runJobs_bound _ ?_
      have hle := runningCount_storeSet_le s'.runnerJobs
        ({ payload with status := JobStatus.COMPLETE } : Job).id
        { payload with status := JobStatus.COMPLETE } (by rfl)
      exact le_trans hle ih
    | failure payload =>
      show runningCount (Runner.errorHandler s' payload).1.runnerJobs
        ≤ s'.maxRunningJobs
      unfold Runner.errorHandler
      rw [processStatus_fst]
      refine runJobs_bound _ ?_
      have hle := runningCount_storeSet_le s'.runnerJobs
        ({ payload with status := JobStatus.ERROR } : Job).id
        { payload with status := JobStatus.ERROR } (by rfl)
      exact le_trans hle ih
    | stopCall =>
      show runningCount (Runner.stop s').runnerJobs ≤ s'.maxRunningJobs
      have := (stopStore_no_active s'.runnerJobs).1
      show runningCount (s'.runnerJobs.map Runner.stopJob) ≤ s'.maxRunningJobs
      rw [this]
      exact Nat.zero_le _

/-- Witness for reachable_running_le_max on a concrete two-event session. -/
theorem reachable_running_le_max_witness :
    runningCount twoEventSession.runnerJobs ≤ twoEventSession.maxRunningJobs :=
  reachable_running_le_max none twoEventSession
    (Reachable.step
      (RunnerEvent.success
        { id := 0, status := JobStatus.RUNNING, startRow := 2, endRow := 5 })
      (Reachable.step
        (RunnerEvent.runCall "generate_rsa_ui"
          [{ id := none, startRow := 2, endRow := 5 },
           { id := none, startRow := 6, endRow := 10 },
           { id := none, startRow := 11, endRow := 12 }])
        Reachable.init))

/-- The batch count of startExecution, rewritten as floor division plus one. -/
theorem startExecutionJobs_length (rowStart rowEnd batchSize : Nat)
    (h2 : 1 ≤ batchSize) :
    (startExecutionJobs rowStart rowEnd batchSize).length
      = (rowEnd - rowStart) / batchSize + 1 := by
  have hb : 0 < batchSize := h2
  have hstep : rowEnd - rowStart + 1 + batchSize - 1 = (rowEnd - rowStart) + batchSize := by
    omega
  simp only [startExecutionJobs, List.length_map, List.length_range, batchCount]
  rw [hstep, Nat.add_div_right _ hb]

/-- The descriptor startExecution builds at index i. -/
theorem startExecutionJobs_getElem (rowStart rowEnd batchSize i : Nat)
    (h : i < (startExecutionJobs rowStart rowEnd batchSize).length) :
    (startExecutionJobs rowStart rowEnd batchSize)[i]
      = { id := some i
          startRow := rowStart + i * batchSize
          endRow := min rowEnd (rowStart + i * batchSize + batchSize - 1) } := by
  simp [startExecutionJobs, List.getElem_map, List.getElem_range]

/-- Claim C5: for rowEnd at least rowStart and batchSize at least 1,
startExecution partitions the inclusive range [rowStart, rowEnd] into
ceil((rowEnd - rowStart + 1) / batchSize) descriptors (the two count bounds
characterize the ceiling): descriptor i carries id i, startRow
rowStart + i * batchSize and endRow min(rowEnd, startRow + batchSize - 1),
each range is nonempty, consecutive ranges are contiguous (so in range order
and non-overlapping), and the union of the ranges covers exactly
[rowStart, rowEnd]. -/
theorem startExecution_partition (rowStart rowEnd batchSize : Nat)
    (h1 : rowStart ≤ rowEnd) (h2 : 1 ≤ batchSize) :
    0 < (startExecutionJobs rowStart rowEnd batchSize).length
    ∧ rowEnd - rowStart + 1
        ≤ (startExecutionJobs rowStart rowEnd batchSize).length * batchSize
    ∧ (startExecutionJobs rowStart rowEnd batchSize).length * batchSize
        < rowEnd - rowStart + 1 + batchSize
    ∧ (∀ i, ∀ _ : i < (startExecutionJobs rowStart rowEnd batchSize).length,
        (startExecutionJobs rowStart rowEnd batchSize)[i].id = some i
        ∧ (startExecutionJobs rowStart rowEnd batchSize)[i].startRow
            = rowStart + i * batchSize
        ∧ (startExecutionJobs rowStart rowEnd batchSize)[i].endRow
            = min rowEnd (rowStart + i * batchSize + batchSize - 1)
        ∧ (startExecutionJobs rowStart rowEnd batchSize)[i].startRow
            ≤ (startExecutionJobs rowStart rowEnd batchSize)[i].endRow)
    ∧ (∀ i, ∀ _ : i + 1 < (startExecutionJobs rowStart rowEnd batchSize).length,
        (startExecutionJobs rowStart rowEnd batchSize)[i + 1].startRow
          = (startExecutionJobs rowStart rowEnd batchSize)[i].endRow + 1)
    ∧ (∀ r, (rowStart ≤ r ∧ r ≤ rowEnd) ↔
        ∃ d ∈ startExecutionJobs rowStart rowEnd batchSize,
          d.startRow ≤ r ∧ r ≤ d.endRow) := by
  have hb : 0 < batchSize := h2
  have hlen := startExecutionJobs_length rowStart rowEnd batchSize h2
  have hdm := Nat.div_add_mod (rowEnd - rowStart) batchSize
  have hmod := Nat.mod_lt (rowEnd - rowStart) hb
  refine ⟨?_, ?_, ?_, ?_, ?_, ?_⟩
  · rw [hlen]; exact Nat.succ_pos _
  · rw [hlen]
    have hexp : ((rowEnd - rowStart) / batchSize + 1) * batchSize
        = batchSize * ((rowEnd - rowStart) / batchSize) + batchSize := by
      rw [Nat.succ_mul, Nat.mul_comm]
    omega
  · rw [hlen]
    have hexp : ((rowEnd - rowStart) / batchSize + 1) * batchSize
        = batchSize * ((rowEnd - rowStart) / batchSize) + batchSize := by
      rw [Nat.succ_mul, Nat.mul_comm]
    omega
  · intro i h
    rw [startExecutionJobs_getElem rowStart rowEnd batchSize i h]
    refine ⟨rfl, rfl, rfl, ?_⟩
    have hi : i ≤ (rowEnd - rowStart) / batchSize := by
      rw [hlen] at h; exact Nat.lt_succ_iff.mp h
    have hib : i * batchSize ≤ batchSize * ((rowEnd - rowStart) / batchSize) := by
      calc i * batchSize ≤ ((rowEnd - rowStart) / batchSize) * batchSize :=
            Nat.mul_le_mul_right batchSize hi
        _ = batchSize * ((rowEnd - rowStart) / batchSize) := Nat.mul_comm _ _
    have hstartle : rowStart + i * batchSize ≤ rowEnd := by omega
    show rowStart + i * batchSize
      ≤ min rowEnd (rowStart + i * batchSize + batchSize - 1)
    exact le_min hstartle (by omega)
  · intro i h
    have hi1 : i < (startExecutionJobs rowStart rowEnd batchSize).length := by omega
    rw [startExecutionJobs_getElem rowStart rowEnd batchSize (i + 1) h,
      startExecutionJobs_getElem rowStart rowEnd batchSize i hi1]
    have hsm : (i + 1) * batchSize = i * batchSize + batchSize := Nat.succ_mul i batchSize
    have hi2 : i + 1 ≤ (rowEnd - rowStart) / batchSize := by
      rw [hlen] at h; exact Nat.lt_succ_iff.mp h
    have hib2 : i * batchSize + batchSize ≤ batchSize * ((rowEnd - rowStart) / batchSize) := by
      calc i * batchSize + batchSize = (i + 1) * batchSize := hsm.symm
        _ ≤ ((rowEnd - rowStart) / batchSize) * batchSize :=
            Nat.mul_le_mul_right batchSize hi2
        _ = batchSize * ((rowEnd - rowStart) / batchSize) := Nat.mul_comm _ _
    have hminr : min rowEnd (rowStart + i * batchSize + batchSize - 1)
        = rowStart + i * batchSize + batchSize - 1 :=
      Nat.min_eq_right (by omega)
    dsimp only
    rw [hminr]
    omega
  · intro r
    constructor
    · rintro ⟨hr1, hr2⟩
      have hdml := Nat.div_mul_le_self (r - rowStart) batchSize
      have hdm2 := Nat.div_add_mod (r - rowStart) batchSize
      have hmod2 := Nat.mod_lt (r - rowStart) hb
      have hcomm : (r - rowStart) / batchSize * batchSize
          = batchSize * ((r - rowStart) / batchSize) := Nat.mul_comm _ _
      have hdiv : (r - rowStart) / batchSize ≤ (rowEnd - rowStart) / batchSize :=
        Nat.div_le_div_right (by omega)
      have hi : (r - rowStart) / batchSize
          < (startExecutionJobs rowStart rowEnd batchSize).length := by
        rw [hlen]; exact Nat.lt_succ_iff.mpr hdiv
      refine ⟨(startExecutionJobs rowStart rowEnd batchSize)[(r - rowStart) / batchSize],
        List.getElem_mem hi, ?_⟩
      rw [startExecutionJobs_getElem rowStart rowEnd batchSize _ hi]
      refine ⟨?_, ?_⟩
      · show rowStart + (r - rowStart) / batchSize * batchSize ≤ r
        omega
      · show r ≤ min rowEnd
          (rowStart + (r - rowStart) / batchSize * batchSize + batchSize - 1)
        exact le_min hr2 (by omega)
    · rintro ⟨d, hd, hds, hde⟩
      simp only [startExecutionJobs, List.mem_map, List.mem_range] at hd
      obtain ⟨i, _, rfl⟩ := hd
      dsimp only at hds hde
      have hdle := Nat.min_le_left rowEnd (rowStart + i * batchSize + batchSize - 1)
      constructor
      · omega
      · omega

/-- Witness for startExecution_partition at the concrete range [2, 10] with
batch size 4 (3 batches: 2-5, 6-9, 10-10). -/
theorem startExecution_partition_witness :
    (2 : Nat) ≤ 10 ∧ (1 : Nat) ≤ 4
    ∧ 0 < (startExecutionJobs 2 10 4).length
    ∧ 10 - 2 + 1 ≤ (startExecutionJobs 2 10 4).length * 4
    ∧ (startExecutionJobs 2 10 4).length * 4 < 10 - 2 + 1 + 4 :=
  ⟨by decide, by decide,
   (startExecution_partition 2 10 4 (by decide) (by decide)).1,
   (startExecution_partition 2 10 4 (by decide) (by decide)).2.1,
   (startExecution_partition 2 10 4 (by decide) (by decide)).2.2.1⟩
